import Mathlib

/-!
Verification of the coordination core of the API_SEARCH repository.

The development shallowly embeds the Python sources:
  - src/server/api_server.py        (single-process gateway over an in-process WorkerPool)
  - src/workers/worker_pool_v3.py   (WorkerPool: task queue, result queue, retrying executor)
  - src/cluster/cluster_master.py   (multi-host gateway over Redis)
  - src/cluster/cluster_worker.py   (Redis-consuming executor with heartbeat lease)

Pure functions become Lean functions; stateful handlers become explicit
state-passing functions; the blocking poll loops become fuel-indexed
recursion, one unit of fuel per poll iteration; wall-clock instants are
explicit integer parameters (seconds, or milliseconds where the source
uses milliseconds).  Python str.lower and str.strip are modelled over the
character list (ASCII range, which covers every string the gateways
themselves build).
-/

/-- Python `s.lower()` modelled on the character list. -/
def pyLower (s : String) : String := ⟨s.data.map Char.toLower⟩

/-- Python `s.strip()` modelled on the character list: drop leading and
trailing whitespace. -/
def pyStrip (s : String) : String :=
  ⟨((s.data.dropWhile Char.isWhitespace).reverse.dropWhile Char.isWhitespace).reverse⟩

/-- Association-list lookup, modelling a key/value store (the in-memory
`cache_memory` dict and the Redis `cache:*` keyspace). -/
def lookupAssoc {ρ : Type} (cache : List (String × ρ)) (key : String) : Option ρ :=
  match cache with
  | [] => none
  | (k, v) :: rest => if k = key then some v else lookupAssoc rest key

/-! ## Cache fingerprints

`get_cache_key` — src/server/api_server.py lines 62-64:
the key is the lower-cased, stripped concatenation of query, a bar, and
location.  The limit does not enter the key.

`generate_cache_key` — src/cluster/cluster_master.py lines 56-59:
the key string is query, colon, location, colon, limit; the stored key is
"cache:" followed by the hex MD5 of that string.  `hashlib.md5` is an
external library primitive; the fingerprint is modelled at the level of
the string fed to the hash, so equality and distinctness of fingerprints
are settled on the pre-hash key string. -/

/-- The function `get_cache_key(query, location)` from api_server.py: lower then strip
the joined string; `limit` is not an argument. -/
def get_cache_key (query location : String) : String :=
  pyStrip (pyLower (query ++ "|" ++ location))

/-- The cache key api_server.py line 131 computes for a request: it passes
only query and location, so the request limit is ignored. -/
def api_request_cache_key (query location : String) (_limit : Int) : String :=
  get_cache_key query location

/-- The pre-hash `key_string` of cluster_master.py line 58. -/
def key_string (query location : String) (limit : Int) : String :=
  query ++ ":" ++ location ++ ":" ++ toString limit

/-- The function `generate_cache_key(query, location, limit)` from cluster_master.py,
with the MD5 step modelled as the identity on the key string. -/
def generate_cache_key (query location : String) (limit : Int) : String :=
  "cache:" ++ key_string query location limit

/-! ## Limit normalization and task ids (cluster_master.py) -/

/-- The function `_normalize_limit(limit_raw)` from cluster_master.py lines 49-54.
`none` models a raw value `int()` rejects (missing values default to 10
before the call and parse to 10).  The parsed value is clamped to 1..50. -/
def _normalize_limit (raw : Option Int) : Int :=
  max 1 (min 50 (raw.getD 10))

/-- Task id generation, cluster_master.py line 143: the id is the string
"task:" followed by the current epoch time in milliseconds.  It depends on
nothing but the clock. -/
def cluster_task_id (now_ms : Int) : String :=
  "task:" ++ toString now_ms

/-! ## Heartbeat lease (cluster_worker.py, cluster_master.py)

`heartbeat_loop` (cluster_worker.py lines 473-481) periodically runs
`setex(key, HEARTBEAT_TTL, now)`: the lease becomes a present key whose
expiry is the refresh instant plus the TTL.  `get_workers`
(cluster_master.py lines 99-116) reads `redis.ttl(key)` — the remaining
seconds, or -2 for a missing (expired) key — and computes
`is_active = True if ttl and ttl > 0 else False`. -/

/-- Default lease duration, cluster_worker.py line 58. -/
def HEARTBEAT_TTL : Int := 60

/-- Default refresh period, cluster_worker.py line 59. -/
def HEARTBEAT_INTERVAL : Int := 5

/-- A lease is the instant of its last `setex` refresh, or `none` if never
refreshed (or already expired away). -/
def heartbeat_refresh (now : Int) : Option Int := some now

/-- Remaining TTL as `redis.ttl` reports it: the seconds until expiry
while the key lives, and -2 once the key has expired or never existed. -/
def ttl_remaining (lease : Option Int) (ttl now : Int) : Int :=
  match lease with
  | none => -2
  | some t => if now < t + ttl then t + ttl - now else -2

/-- The Python expression `True if ttl and ttl > 0 else False` from
cluster_master.py line 107: `0` is falsy, any other integer is truthy. -/
def is_active (ttl : Int) : Bool :=
  if ttl = 0 then false else decide (0 < ttl)

/-! ## WorkerPool result correlation (worker_pool_v3.py)

`WorkerPool.get_result` (lines 764-775) polls the shared `result_queue`
until the deadline: each poll dequeues one item; an item whose task id
matches (or any item, when no id was requested — a falsy `task_id`) is
returned, and a mismatched item is put back at the tail of the queue.
Fuel counts the poll iterations remaining before the deadline; an empty
queue consumes one poll (the `queue.Empty` branch continues). -/

/-- An item of the worker pool result queue: the correlating task id plus
the rest of the result dictionary, left opaque. -/
structure PoolResult (α : Type) where
  task_id : String
  body : α
deriving DecidableEq, Repr

/-- The poll `WorkerPool.get_result(task_id, timeout)`: returns the result taken
(if any) together with the final content of the result queue. -/
def get_result {α : Type} (fuel : Nat) (tid? : Option String)
    (q : List (PoolResult α)) : Option (PoolResult α) × List (PoolResult α) :=
  match fuel with
  | 0 => (none, q)
  | fuel + 1 =>
    match q with
    | [] => get_result fuel tid? []
    | item :: rest =>
      match tid? with
      | none => (some item, rest)
      | some tid =>
        if item.task_id = tid then (some item, rest)
        else get_result fuel tid? (rest ++ [item])

/-! ## Executor retry loop (worker_pool_v3.py SeleniumWorker.search)

`search` (lines 272-293) makes up to `max_retries` attempts at the
collaborator (`_perform_search`); the first success is returned, and when
every attempt raises, the worker returns an error result carrying the
message of the last exception (or the fixed fallback text when no attempt
ran at all).  The collaborator is modelled as a function from the attempt
index to an `Except`: an exception message or a payload. -/

/-- Tagged outcome of one `SeleniumWorker.search` call. -/
inductive SearchOutcome (α : Type) where
  | success (payload : α)
  | failure (msg : String)
deriving DecidableEq, Repr

/-- The attempts the retry loop actually performs, starting at index
`attempt` with `n` attempts left: it stops after the first success or when
the retry budget runs out. -/
def attemptsFrom {α : Type} (collab : Nat → Except String α) :
    Nat → Nat → List (Except String α)
  | _, 0 => []
  | attempt, n + 1 =>
    match collab attempt with
    | .ok v => [.ok v]
    | .error e => .error e :: attemptsFrom collab (attempt + 1) n

/-- The list of collaborator attempts a `search(…, max_retries)` call makes. -/
def search_attempts {α : Type} (maxRetries : Nat)
    (collab : Nat → Except String α) : List (Except String α) :=
  attemptsFrom collab 0 maxRetries

/-- Number of failed attempts within one `search` call. -/
def failed_attempts {α : Type} (maxRetries : Nat)
    (collab : Nat → Except String α) : Nat :=
  (search_attempts maxRetries collab).countP fun a =>
    match a with
    | .error _ => true
    | .ok _ => false

/-- The retry loop body: `last_err` tracks the latest exception; when the
budget is exhausted the error result carries `str(last_err or "erro
desconhecido")`. -/
def searchFrom {α : Type} (collab : Nat → Except String α) :
    Nat → Option String → Nat → SearchOutcome α
  | _, lastErr, 0 => .failure (lastErr.getD "erro desconhecido")
  | attempt, _, n + 1 =>
    match collab attempt with
    | .ok v => .success v
    | .error e => searchFrom collab (attempt + 1) (some e) n

/-- The outcome of `SeleniumWorker.search` with the given retry budget. -/
def search_result {α : Type} (maxRetries : Nat)
    (collab : Nat → Except String α) : SearchOutcome α :=
  searchFrom collab 0 none maxRetries

/-- Per-worker counters mutated by `search`: `total_searches`,
`successful_searches`, `failed_searches`. -/
structure WCounters where
  total : Nat
  successful : Nat
  failed : Nat
deriving DecidableEq, Repr

/-- Counter update of one `search` call: total always increments; exactly
one of successful/failed increments, by one. -/
def search_counters {α : Type} (maxRetries : Nat)
    (collab : Nat → Except String α) (c : WCounters) : WCounters :=
  match search_result maxRetries collab with
  | .success _ => ⟨c.total + 1, c.successful + 1, c.failed⟩
  | .failure _ => ⟨c.total + 1, c.successful, c.failed + 1⟩

/-! ## The single-process gateway (api_server.py `search`, lines 116-179)

The handler: strip query and location and reject blanks; consult the
in-memory cache under `get_cache_key`; refuse when the pool reports zero
available and zero total workers; otherwise enqueue a task (FIFO put) and
poll `get_result` until the deadline; a missing result becomes the timeout
response carrying the elapsed seconds; an error result is returned without
caching; a success result is cached and returned. -/

/-- A task as `submit_task` enqueues it (worker_pool_v3.py lines 759-762). -/
structure ApiTask where
  id : String
  query : String
  location : String
  limit : Int
deriving DecidableEq, Repr

/-- The slice of `WorkerPool.get_stats` the handler reads.
`available_workers` is `total_workers - busy_workers` (lines 783-788). -/
structure ApiPoolStats where
  total_workers : Nat
  busy_workers : Nat
deriving DecidableEq, Repr

/-- The `available_workers` figure as computed by `get_stats`. -/
def ApiPoolStats.available_workers (s : ApiPoolStats) : Nat :=
  s.total_workers - s.busy_workers

/-- Mutable state the handler touches: the in-memory cache, the task
queue, and the result queue. -/
structure ApiState (α : Type) where
  cache : List (String × α)
  taskQueue : List ApiTask
  resultQueue : List (PoolResult α)

/-- The handler responses, one per exit path of `search`. -/
inductive ApiResponse (α : Type) where
  | validationError
  | cacheHit (r : α)
  | noWorkers
  | timeout (elapsed : Nat)
  | workerError (r : PoolResult α)
  | success (r : PoolResult α)
deriving DecidableEq, Repr

/-- The `search` handler of api_server.py.  `isError` reads the status
field of a result body; `fuel` is the number of result polls before the
deadline and `elapsed` the wall-clock seconds the timeout branch reports;
`task_id` is the fresh uuid4 string of line 153. -/
def api_search {α : Type} (isError : α → Bool) (query location : String)
    (limit : Int) (task_id : String) (fuel : Nat) (elapsed : Nat)
    (stats : ApiPoolStats) (st : ApiState α) :
    ApiResponse α × ApiState α :=
  let q := pyStrip query
  let l := pyStrip location
  if q = "" ∨ l = "" then (.validationError, st)
  else
    let key := get_cache_key q l
    match lookupAssoc st.cache key with
    | some r => (.cacheHit r, st)
    | none =>
      if stats.available_workers = 0 ∧ stats.total_workers = 0 then
        (.noWorkers, st)
      else
        let task : ApiTask := ⟨task_id, q, l, limit⟩
        let st₁ : ApiState α := { st with taskQueue := st.taskQueue ++ [task] }
        let gr := get_result fuel (some task_id) st₁.resultQueue
        match gr.1 with
        | none => (.timeout elapsed, { st₁ with resultQueue := gr.2 })
        | some r =>
          if isError r.body then (.workerError r, { st₁ with resultQueue := gr.2 })
          else
            (.success r,
              { st₁ with cache := (key, r.body) :: st₁.cache, resultQueue := gr.2 })

/-! ## Worker loop publication (worker_pool_v3.py `_worker_loop`, lines 730-757)

After a claimed task runs, the loop always puts exactly one result on the
result queue: the search outcome tagged with the task id (and even an
exception escaping `search` is converted into an error result carrying the
same id). -/

/-- The publish step of `_worker_loop`: append the outcome, tagged with
the claimed task id, to the result queue. -/
def worker_loop_publish {α : Type} (task : ApiTask) (outcome : SearchOutcome α)
    (resultQueue : List (PoolResult (SearchOutcome α))) :
    List (PoolResult (SearchOutcome α)) :=
  resultQueue ++ [⟨task.id, outcome⟩]

/-! ## The multi-host gateway (cluster_master.py `search`, lines 121-182)

The handler: reject a missing (or empty, both falsy) query or location;
normalize the limit; consult the Redis cache under `generate_cache_key`;
otherwise build the task id from the clock, LPUSH the task onto
`scraper:tasks`, and poll the result key for that task id once per second until
the 120 s deadline, deleting the key and populating the cache on a
success status.  There is no executor-liveness check anywhere on this
path.  The result keyspace is modelled as a snapshot function from key to
optional result (no worker writes during the wait are modelled; the
counterexamples below only need the empty store). -/

/-- A task as cluster_master.py lines 144-149 serializes it. -/
structure ClusterTask where
  id : String
  query : String
  location : String
  limit : Int
deriving DecidableEq, Repr

/-- Redis state the handler touches: the `cache:*` keyspace, the
`scraper:tasks` list (head = most recently LPUSHed element), and the
`scraper:result:*` keyspace. -/
structure ClusterState (ρ : Type) where
  cache : List (String × ρ)
  tasks : List ClusterTask
  results : String → Option ρ

/-- The handler responses, one per exit path of the cluster `search`. -/
inductive ClusterResponse (ρ : Type) where
  | validationError
  | cacheHit (r : ρ)
  | completed (r : ρ)
  | timeoutNoWorker
deriving Repr

/-- The polling wait of cluster_master.py lines 155-174, one fuel unit per
one-second poll of the result key. -/
def cluster_wait {ρ : Type} (results : String → Option ρ) (key : String) :
    Nat → Option ρ
  | 0 => none
  | n + 1 =>
    match results key with
    | some r => some r
    | none => cluster_wait results key n

/-- The `search` handler of cluster_master.py.  `isSuccess` reads the
status field of a result; `none` for query or location models a missing or
empty (falsy) parameter; `now_ms` is the epoch millisecond clock read at
task creation. -/
def cluster_search {ρ : Type} (isSuccess : ρ → Bool)
    (query location : Option String) (limitRaw : Option Int)
    (use_cache : Bool) (now_ms : Int) (fuel : Nat) (st : ClusterState ρ) :
    ClusterResponse ρ × ClusterState ρ :=
  match query, location with
  | some q, some l =>
    let limit := _normalize_limit limitRaw
    let cached : Option ρ :=
      if use_cache then lookupAssoc st.cache (generate_cache_key q l limit)
      else none
    match cached with
    | some r => (.cacheHit r, st)
    | none =>
      let tid := cluster_task_id now_ms
      let task : ClusterTask := ⟨tid, q, l, limit⟩
      let st₁ : ClusterState ρ := { st with tasks := task :: st.tasks }
      let rkey := "scraper:result:" ++ tid
      match cluster_wait st₁.results rkey fuel with
      | some r =>
        let st₂ : ClusterState ρ :=
          { st₁ with results := fun k => if k = rkey then none else st₁.results k }
        if isSuccess r then
          (.completed r,
            { st₂ with cache := (generate_cache_key q l limit, r) :: st₂.cache })
        else (.completed r, st₂)
      | none => (.timeoutNoWorker, st₁)
  | _, _ => (.validationError, st)

/-! ## Exclusive task hand-off (the WorkQueue)

Both executor loops claim tasks through an atomic dequeue:
`task_queue.get` in `WorkerPool._worker_loop` (worker_pool_v3.py lines
730-737, a `queue.Queue` shared by the pool threads) and `brpop` on
`scraper:tasks` in the cluster worker main loop (cluster_worker.py lines
577-611).  Both primitives remove the claimed element in one atomic step,
so one transition system covers the two deployments: a state holds the
pending FIFO queue and the claim list, and a step either enqueues a task
not seen before (each `submit_task` / LPUSH hands over a distinct task
object) or lets one executor atomically move the queue head into its
claims.  Task identities are opaque tokens, modelled as naturals. -/

/-- Queue-and-claims state of the work distribution system. -/
structure QState where
  pending : List Nat
  claimed : List (Nat × Nat)
deriving DecidableEq, Repr

/-- Tasks present anywhere in the system: still queued or already claimed. -/
def tasksOf (s : QState) : List Nat :=
  s.pending ++ s.claimed.map Prod.snd

/-- One transition of the work distribution system: a gateway enqueues a
fresh task, or executor `e` atomically dequeues the head task. -/
inductive QStep : QState → QState → Prop where
  | enqueue (s : QState) (t : Nat) (hq : t ∉ s.pending)
      (hc : t ∉ s.claimed.map Prod.snd) :
      QStep s ⟨s.pending ++ [t], s.claimed⟩
  | claim (s : QState) (e t : Nat) (rest : List Nat)
      (h : s.pending = t :: rest) :
      QStep s ⟨rest, (e, t) :: s.claimed⟩

/-- States reachable from the initial empty system. -/
def QReachable (s : QState) : Prop :=
  Relation.ReflTransGen QStep ⟨[], []⟩ s

/-! ## Payload assembly (worker_pool_v3.py `_perform_search`,
cluster_worker.py `google_local_search`)

`_perform_search` (lines 296-403) walks the anchor elements the page
yields, extracting a record per anchor (`_extract_place_data_from_any_anchor`
returns a record or nothing); the walk numbers appended records with a
`pos` counter starting at 1 and stops once `pos` exceeds the limit; the
published payload is `places[:limit]`.  The three extraction fallbacks
(lcl, SERP, Maps) all run this same loop shape.  An anchor is modelled as
the optional record its extraction produces.

`google_local_search` (cluster_worker.py lines 400-446) gathers a
`collected` list (deduplicated by stripped title, blanks skipped, capped
at the limit) and publishes `enumerate(collected[:limit], start=1)` as
position/title/rating records. -/

/-- A payload record together with the position number the loop stamps. -/
structure Place (α : Type) where
  position : Nat
  data : α
deriving DecidableEq, Repr

/-- The anchor walk of `_perform_search`: `pos` is the next position to
stamp; the loop breaks as soon as `pos` exceeds the limit. -/
def extract_places_from {α : Type} (limit : Nat) :
    Nat → List (Option α) → List (Place α)
  | _, [] => []
  | pos, a :: rest =>
    if limit < pos then []
    else
      match a with
      | some d => ⟨pos, d⟩ :: extract_places_from limit (pos + 1) rest
      | none => extract_places_from limit pos rest

/-- The payload `_perform_search` publishes: the anchor walk from
position 1, truncated once more by `places[:limit]` (line 402). -/
def perform_search_places {α : Type} (limit : Nat) (anchors : List (Option α)) :
    List (Place α) :=
  (extract_places_from limit 1 anchors).take limit

/-- A record of the cluster extraction: a title and an optional rating. -/
structure CItem where
  title : String
  rating : Option Int
deriving DecidableEq, Repr

/-- One pass of the collection loop of `google_local_search` lines
408-417: skip blank or already-seen stripped titles, append the rest, and
stop as soon as the limit is reached. -/
def collect_pass (limit : Nat) :
    List String → List CItem → List CItem → List CItem
  | _, acc, [] => acc
  | seen, acc, it :: rest =>
    let t := pyStrip it.title
    if t = "" then collect_pass limit seen acc rest
    else if t ∈ seen then collect_pass limit seen acc rest
    else
      let acc' := acc ++ [it]
      if limit ≤ acc'.length then acc'
      else collect_pass limit (t :: seen) acc' rest

/-- A published place of the cluster payload (lines 439-445). -/
structure ClusterPlace where
  position : Nat
  title : String
  rating : Option Int
deriving DecidableEq, Repr

/-- The payload `google_local_search` publishes:
`enumerate(collected[:limit], start=1)`. -/
def cluster_places (limit : Nat) (collected : List CItem) : List ClusterPlace :=
  (collected.take limit).enum.map fun p => ⟨p.1 + 1, p.2.title, p.2.rating⟩

/-! ## Helper lemmas -/


/-- Decimal representation is injective on the clamped limit range 0..50. -/
theorem natRepr_inj_small : ∀ a b : Fin 51, a ≠ b →
    Nat.repr a.val ≠ Nat.repr b.val := by decide

/-- Printing a nonnegative integer agrees with printing the natural. -/
theorem toString_intOfNat (m : Nat) : toString (Int.ofNat m) = Nat.repr m := rfl

/-- Distinct limits within the normalized range 1..50 print differently. -/
theorem intToString_inj_small {n₁ n₂ : Int} (h₁ : 1 ≤ n₁) (h₁' : n₁ ≤ 50)
    (h₂ : 1 ≤ n₂) (h₂' : n₂ ≤ 50) (hne : n₁ ≠ n₂) :
    toString n₁ ≠ toString n₂ := by
  have e₁ : n₁ = Int.ofNat n₁.toNat := (Int.toNat_of_nonneg (by omega)).symm
  have e₂ : n₂ = Int.ofNat n₂.toNat := (Int.toNat_of_nonneg (by omega)).symm
  have hm₁ : n₁.toNat < 51 := by omega
  have hm₂ : n₂.toNat < 51 := by omega
  have hmne : n₁.toNat ≠ n₂.toNat := by omega
  rw [e₁, e₂, toString_intOfNat, toString_intOfNat]
  exact natRepr_inj_small ⟨n₁.toNat, hm₁⟩ ⟨n₂.toNat, hm₂⟩
    (by simp [Fin.ext_iff]; exact hmne)

/-! ## C1 — cache fingerprints and the limit -/

/-- C1 counterexample: in the single-process gateway two requests that
differ only in their limit (1 versus 2) are keyed identically, refuting
that changing the limit alone changes the cache key in both gateways. -/
theorem cache_key_ignores_limit_cex :
    api_request_cache_key "pizza" "recife" 1 = api_request_cache_key "pizza" "recife" 2
    ∧ (1 : Int) ≠ 2 :=
  ⟨rfl, by decide⟩

/-- C1 (amended): both fingerprints are pure functions of their inputs,
and in the multi-host gateway `generate_cache_key` two requests that agree
on query and location but differ in their normalized limit (range 1..50)
get different cache keys; the single-process `get_cache_key`, by contrast,
depends only on query and location, so the limit never alters it. -/
theorem cache_fingerprint_of_request :
    (∀ q l : String, ∀ n₁ n₂ : Int,
      api_request_cache_key q l n₁ = api_request_cache_key q l n₂)
    ∧ (∀ q₁ q₂ l₁ l₂ : String, ∀ n₁ n₂ : Int, q₁ = q₂ → l₁ = l₂ → n₁ = n₂ →
      generate_cache_key q₁ l₁ n₁ = generate_cache_key q₂ l₂ n₂)
    ∧ (∀ q l : String, ∀ n₁ n₂ : Int, 1 ≤ n₁ → n₁ ≤ 50 → 1 ≤ n₂ → n₂ ≤ 50 →
      n₁ ≠ n₂ → generate_cache_key q l n₁ ≠ generate_cache_key q l n₂) := by
  refine ⟨fun q l n₁ n₂ => rfl, fun q₁ q₂ l₁ l₂ n₁ n₂ hq hl hn => by rw [hq, hl, hn], ?_⟩
  intro q l n₁ n₂ h₁ h₁' h₂ h₂' hne h
  have hd := congrArg String.data h
  simp [generate_cache_key, key_string, String.data_append, List.append_assoc] at hd
  exact intToString_inj_small h₁ h₁' h₂ h₂' hne (String.ext hd)

/-- C1 witness: the amended theorem applied at the concrete request
(query pizza, location recife) with normalized limits 10 and 20. -/
theorem cache_fingerprint_of_request_witness :
    generate_cache_key "pizza" "recife" 10 ≠ generate_cache_key "pizza" "recife" 20 :=
  cache_fingerprint_of_request.2.2 "pizza" "recife" 10 20
    (by decide) (by decide) (by decide) (by decide) (by decide)

/-! ## C5 — task id freshness -/

/-- C5: the multi-host gateway derives the task id from the millisecond
clock alone, so two distinct cache-miss dispatches (different queries)
issued in the same millisecond enqueue tasks carrying the same id —
the id is not fresh per dispatch.  Evaluates both handler calls at the
failing input (same epoch millisecond 1700000000000). -/
theorem cluster_task_id_collision :
    ((cluster_search (fun _ : Unit => true) (some "pizza") (some "recife")
        (some 10) true 1700000000000 1 ⟨[], [], fun _ => none⟩).2.tasks.map
        ClusterTask.id
      = (cluster_search (fun _ : Unit => true) (some "sushi") (some "recife")
        (some 10) true 1700000000000 1 ⟨[], [], fun _ => none⟩).2.tasks.map
        ClusterTask.id)
    ∧ ("pizza" : String) ≠ "sushi" := by
  exact ⟨rfl, by decide⟩

/-! ## C2 — result correlation with non-destructive re-queue -/

/-- C2: whenever `get_result(task_id, timeout)` returns a result, that
result carries the requested task id; and the queue contents are preserved
up to order — putting the taken result back in front of the final queue
recovers a permutation of the initial queue, so every mismatched result
dequeued during the wait was re-queued and nothing pending for other
waiters was consumed. -/
theorem get_result_correlation {α : Type} :
    ∀ (fuel : Nat) (tid : String) (q q' : List (PoolResult α))
      (res : Option (PoolResult α)),
      get_result fuel (some tid) q = (res, q') →
      (∀ r, res = some r → r.task_id = tid) ∧ (res.toList ++ q').Perm q := by
  intro fuel
  induction fuel with
  | zero =>
    intro tid q q' res h
    injection h with h₁ h₂
    subst h₁; subst h₂
    exact ⟨(fun r hr => by cases hr), by simp⟩
  | succ n ih =>
    intro tid q q' res h
    cases q with
    | nil =>
      have h' : get_result n (some tid) ([] : List (PoolResult α)) = (res, q') := h
      obtain ⟨h₁, h₂⟩ := ih tid [] q' res h'
      exact ⟨h₁, h₂⟩
    | cons item rest =>
      by_cases he : item.task_id = tid
      · have h' : (some item, rest) = (res, q') := by
          simpa [get_result, he] using h
        injection h' with h₁ h₂
        subst h₁; subst h₂
        refine ⟨(fun r hr => by cases hr; exact he), by simp⟩
      · have h' : get_result n (some tid) (rest ++ [item]) = (res, q') := by
          simpa [get_result, he] using h
        obtain ⟨h₁, h₂⟩ := ih tid (rest ++ [item]) q' res h'
        exact ⟨h₁, h₂.trans (List.perm_append_singleton item rest)⟩

/-- C2 witness: a two-element queue holding a foreign result and the
awaited one; the call returns the awaited result and leaves the foreign
result on the queue. -/
theorem get_result_correlation_witness :
    ((⟨"b", ()⟩ : PoolResult Unit).task_id = "b")
    ∧ ([(⟨"b", ()⟩ : PoolResult Unit)] ++ [(⟨"a", ()⟩ : PoolResult Unit)]).Perm
        [(⟨"a", ()⟩ : PoolResult Unit), (⟨"b", ()⟩ : PoolResult Unit)] := by
  have h := get_result_correlation 3 "b"
    [(⟨"a", ()⟩ : PoolResult Unit), (⟨"b", ()⟩ : PoolResult Unit)]
    [(⟨"a", ()⟩ : PoolResult Unit)] (some ⟨"b", ()⟩) (by decide)
  exact ⟨h.1 _ rfl, h.2⟩

/-! ## C7 — timeout backstop -/

/-- Helper: when no queued result carries the awaited id, the poll loop
returns nothing once the deadline fuel runs out (it never blocks past the
deadline, and the mismatched results keep rotating through the queue). -/
theorem get_result_none_of_no_match {α : Type} :
    ∀ (fuel : Nat) (tid : String) (q : List (PoolResult α)),
      (∀ r ∈ q, r.task_id ≠ tid) →
      (get_result fuel (some tid) q).1 = none := by
  intro fuel
  induction fuel with
  | zero => intro tid q _; rfl
  | succ n ih =>
    intro tid q h
    cases q with
    | nil => exact ih tid [] (by simp)
    | cons item rest =>
      have hne : item.task_id ≠ tid := h item (by simp)
      have hstep : get_result (n + 1) (some tid) (item :: rest)
          = get_result n (some tid) (rest ++ [item]) := by
        simp [get_result, hne]
      rw [hstep]
      refine ih tid (rest ++ [item]) ?_
      intro r hr
      rcases List.mem_append.mp hr with h' | h'
      · exact h r (List.mem_cons_of_mem _ h')
      · rw [List.mem_singleton.mp h']; exact hne

/-- C7: when no result carrying the dispatched task id ever reaches the
result queue, the poll returns nothing at the deadline instead of blocking,
and the handler answers with the timeout response carrying the elapsed
time. -/
theorem dispatch_timeout_backstop {α : Type} (isError : α → Bool)
    (query location : String) (limit : Int) (tid : String)
    (fuel elapsed : Nat) (stats : ApiPoolStats) (st : ApiState α)
    (hq : pyStrip query ≠ "") (hl : pyStrip location ≠ "")
    (hc : lookupAssoc st.cache (get_cache_key (pyStrip query) (pyStrip location)) = none)
    (hw : stats.total_workers ≠ 0)
    (hno : ∀ r ∈ st.resultQueue, r.task_id ≠ tid) :
    (api_search isError query location limit tid fuel elapsed stats st).1
      = ApiResponse.timeout elapsed
    ∧ (get_result fuel (some tid) st.resultQueue).1 = none := by
  have hnone := get_result_none_of_no_match fuel tid st.resultQueue hno
  refine ⟨?_, hnone⟩
  simp [api_search, hq, hl, hc, hw, hnone]

/-- C7 witness: a dispatch whose only queued result belongs to another
task times out after two polls and reports the elapsed 120 seconds. -/
theorem dispatch_timeout_backstop_witness :
    (api_search (fun _ : Unit => false) "pizza" "recife" 10 "t1" 2 120 ⟨1, 0⟩
      ⟨[], [], [⟨"other", ()⟩]⟩).1 = ApiResponse.timeout 120
    ∧ (get_result 2 (some "t1") [(⟨"other", ()⟩ : PoolResult Unit)]).1 = none :=
  dispatch_timeout_backstop (fun _ : Unit => false) "pizza" "recife" 10 "t1" 2 120
    ⟨1, 0⟩ ⟨[], [], [⟨"other", ()⟩]⟩ (by decide) (by decide) rfl (by decide)
    (by decide)

/-! ## C4 — dispatch with no executors -/

/-- C4 counterexample: the multi-host gateway performs no liveness check:
a cache-miss dispatch against a system with no executor anywhere (empty
result store, nothing ever published) still LPUSHes its task — the work
queue is not left empty, and the call ends in the timeout response rather
than an immediate refusal. -/
theorem no_executor_enqueues_anyway_cex :
    (cluster_search (fun _ : Unit => true) (some "pizza") (some "recife")
      (some 10) true 123 3 ⟨[], [], fun _ => none⟩).1
        = ClusterResponse.timeoutNoWorker
    ∧ (cluster_search (fun _ : Unit => true) (some "pizza") (some "recife")
      (some 10) true 123 3 ⟨[], [], fun _ => none⟩).2.tasks ≠ [] :=
  ⟨rfl, by decide⟩

/-- C4 (amended): only the single-process gateway short-circuits: on a
cache miss with the pool reporting zero workers it refuses immediately and
leaves every piece of state — the task queue included — untouched; the
multi-host gateway enqueues regardless (see the counterexample). -/
theorem no_executor_short_circuit {α : Type} (isError : α → Bool)
    (query location : String) (limit : Int) (tid : String)
    (fuel elapsed : Nat) (stats : ApiPoolStats) (st : ApiState α)
    (hq : pyStrip query ≠ "") (hl : pyStrip location ≠ "")
    (hc : lookupAssoc st.cache (get_cache_key (pyStrip query) (pyStrip location)) = none)
    (hw : stats.total_workers = 0) :
    api_search isError query location limit tid fuel elapsed stats st
      = (ApiResponse.noWorkers, st) := by
  have hav : stats.available_workers = 0 := by
    simp [ApiPoolStats.available_workers, hw]
  simp [api_search, hq, hl, hc, hw, hav]

/-- C4 witness: a concrete cache-miss dispatch against an empty pool is
refused and the state is returned unchanged. -/
theorem no_executor_short_circuit_witness :
    api_search (fun _ : Unit => false) "pizza" "recife" 10 "t1" 3 120 ⟨0, 0⟩
      ⟨[], [], []⟩ = (ApiResponse.noWorkers, ⟨[], [], []⟩) :=
  no_executor_short_circuit (fun _ : Unit => false) "pizza" "recife" 10 "t1" 3 120
    ⟨0, 0⟩ ⟨[], [], []⟩ (by decide) (by decide) rfl rfl

/-! ## C3 — exclusive claim of every task -/

/-- Helper: each step of the work distribution system preserves
distinctness of the tasks present anywhere in the system. -/
theorem qstep_tasks_nodup {s s' : QState} (h : QStep s s')
    (hn : (tasksOf s).Nodup) : (tasksOf s').Nodup := by
  cases h with
  | enqueue t hq hc =>
    have hperm : (tasksOf ⟨s.pending ++ [t], s.claimed⟩).Perm (t :: tasksOf s) := by
      simp [tasksOf]
    refine hperm.nodup_iff.mpr ?_
    refine List.nodup_cons.mpr ⟨?_, hn⟩
    intro hmem
    rcases List.mem_append.mp hmem with h' | h'
    · exact hq h'
    · exact hc h'
  | claim e t rest hp =>
    have hperm : (tasksOf ⟨rest, (e, t) :: s.claimed⟩).Perm (tasksOf s) := by
      simp [tasksOf, hp]
    exact hperm.nodup_iff.mpr hn

/-- Helper: every reachable state of the work distribution system holds
each task at most once across the queue and the claim list. -/
theorem qreachable_tasks_nodup {s : QState} (h : QReachable s) :
    (tasksOf s).Nodup := by
  induction h with
  | refl => simp [tasksOf]
  | tail _ hstep ih => exact qstep_tasks_nodup hstep ih

/-- C3: in every reachable state of the work distribution system — the
one transition system covering both the in-process `queue.Queue` and the
Redis `brpop` hand-off, whose dequeues are atomic — the tasks present are
pairwise distinct, a task in the claim list is claimed by exactly one
executor, a task still pending is claimed by nobody, and every transition
preserves the tasks present (a claim moves the head task, losing nothing;
an enqueue adds exactly the new task). -/
theorem exactly_one_claim_per_task :
    ∀ s : QState, QReachable s →
      (tasksOf s).Nodup
      ∧ (∀ e₁ e₂ t : Nat, (e₁, t) ∈ s.claimed → (e₂, t) ∈ s.claimed → e₁ = e₂)
      ∧ (∀ t ∈ s.pending, t ∉ s.claimed.map Prod.snd)
      ∧ (∀ s' : QState, QStep s s' →
          (tasksOf s').Perm (tasksOf s)
          ∨ ∃ t, (tasksOf s').Perm (tasksOf s ++ [t])) := by
  intro s hreach
  have hn := qreachable_tasks_nodup hreach
  refine ⟨hn, ?_, ?_, ?_⟩
  · intro e₁ e₂ t h₁ h₂
    have hm : (s.claimed.map Prod.snd).Nodup := (List.Nodup.of_append_right hn)
    have := List.inj_on_of_nodup_map hm h₁ h₂ rfl
    exact congrArg Prod.fst this
  · intro t ht hmem
    exact (List.disjoint_of_nodup_append hn) ht hmem
  · intro s' hstep
    cases hstep with
    | enqueue t hq hc =>
      right
      refine ⟨t, ?_⟩
      have h₁ : (tasksOf ⟨s.pending ++ [t], s.claimed⟩).Perm (t :: tasksOf s) := by
        simp [tasksOf]
      have h₂ : (tasksOf s ++ [t]).Perm (t :: tasksOf s) :=
        List.perm_append_singleton t (tasksOf s)
      exact h₁.trans h₂.symm
    | claim e t rest hp =>
      left
      simp [tasksOf, hp]

/-- C3 witness: enqueue task 7 into the empty system and let executor 1
claim it; the reachable state keeps the task set duplicate-free. -/
theorem exactly_one_claim_per_task_witness :
    (tasksOf ⟨[], [(1, 7)]⟩).Nodup :=
  (exactly_one_claim_per_task ⟨[], [(1, 7)]⟩
    (Relation.ReflTransGen.tail
      (Relation.ReflTransGen.single (QStep.enqueue ⟨[], []⟩ 7 (by simp) (by simp)))
      (QStep.claim ⟨[7], []⟩ 1 7 [] rfl))).1

/-! ## C6 — retry exhaustion publishes an error result -/

/-- C6: under the configured budget of 2 retries, a collaborator failing
on both attempt indices causes exactly two attempts — both failures, so
the failed-attempt count is exactly 2 — and the call produces the error
outcome carrying the message of the final failure; the per-worker failure
counter increments, and the worker loop still publishes a result tagged
with the claimed task id (the task is never dropped silently). -/
theorem retry_exhaustion {α : Type} (collab : Nat → Except String α)
    (e₀ e₁ : String) (task : ApiTask)
    (rq : List (PoolResult (SearchOutcome α)))
    (h₀ : collab 0 = .error e₀) (h₁ : collab 1 = .error e₁) :
    search_attempts 2 collab = [.error e₀, .error e₁]
    ∧ failed_attempts 2 collab = 2
    ∧ search_result 2 collab = .failure e₁
    ∧ (∀ c : WCounters, search_counters 2 collab c
        = ⟨c.total + 1, c.successful, c.failed + 1⟩)
    ∧ (⟨task.id, SearchOutcome.failure e₁⟩ : PoolResult (SearchOutcome α))
        ∈ worker_loop_publish task (search_result 2 collab) rq := by
  have ha : search_attempts 2 collab = [.error e₀, .error e₁] := by
    simp [search_attempts, attemptsFrom, h₀, h₁]
  have hr : search_result 2 collab = .failure e₁ := by
    simp [search_result, searchFrom, h₀, h₁]
  refine ⟨ha, ?_, hr, ?_, ?_⟩
  · simp [failed_attempts, ha, List.countP_cons]
  · intro c
    simp [search_counters, hr]
  · rw [hr]
    simp [worker_loop_publish]

/-- C6 witness: a collaborator failing every attempt with the message
"falha" under budget 2 yields the error outcome and two failed attempts. -/
theorem retry_exhaustion_witness :
    search_result 2 (fun _ => (.error "falha" : Except String Unit)) = .failure "falha"
    ∧ failed_attempts 2 (fun _ => (.error "falha" : Except String Unit)) = 2 := by
  have h := retry_exhaustion (fun _ => (.error "falha" : Except String Unit))
    "falha" "falha" ⟨"t", "q", "l", 10⟩ [] rfl rfl
  exact ⟨h.2.2.1, h.2.1⟩

/-! ## C8 — heartbeat lease liveness -/

/-- C8: the monitor computation marks an executor active exactly when the
reported remaining TTL is positive; a lease never refreshed (or already
expired away) is inactive; once the TTL has elapsed with no further
refresh the executor reads as inactive; and after any `setex` refresh it
reads as active again at every instant before the new expiry. -/
theorem heartbeat_lease_liveness :
    (∀ v : Int, is_active v = decide (0 < v))
    ∧ (∀ ttl now : Int, is_active (ttl_remaining none ttl now) = false)
    ∧ (∀ t ttl now : Int,
        (is_active (ttl_remaining (some t) ttl now) = true ↔ now < t + ttl))
    ∧ (∀ t ttl now : Int, t + ttl ≤ now →
        is_active (ttl_remaining (some t) ttl now) = false)
    ∧ (∀ tR ttl now : Int, now < tR + ttl →
        is_active (ttl_remaining (heartbeat_refresh tR) ttl now) = true) := by
  have hval : ∀ v : Int, is_active v = decide (0 < v) := by
    intro v
    by_cases hv : v = 0
    · simp [is_active, hv]
    · simp [is_active, hv]
  have hsome : ∀ t ttl now : Int,
      (is_active (ttl_remaining (some t) ttl now) = true ↔ now < t + ttl) := by
    intro t ttl now
    by_cases hlt : now < t + ttl
    · have hpos : (0 : Int) < t + ttl - now := by omega
      simp [ttl_remaining, hlt, hval, hpos]
    · simp [ttl_remaining, hlt, hval]
  refine ⟨hval, ?_, hsome, ?_, ?_⟩
  · intro ttl now
    simp [ttl_remaining, hval]
  · intro t ttl now hexp
    have hnlt : ¬ now < t + ttl := by omega
    simp [ttl_remaining, hnlt, hval]
  · intro tR ttl now hlt
    exact (hsome tR ttl now).mpr hlt

/-- C8 witness: the default 60-second lease refreshed at instant 100 is
active at instant 130 and inactive at instant 160, and a remaining TTL of
zero reads inactive. -/
theorem heartbeat_lease_liveness_witness :
    is_active (ttl_remaining (heartbeat_refresh 100) HEARTBEAT_TTL 130) = true
    ∧ is_active (ttl_remaining (some 100) HEARTBEAT_TTL 160) = false
    ∧ is_active 0 = decide ((0 : Int) < 0) :=
  ⟨heartbeat_lease_liveness.2.2.2.2 100 HEARTBEAT_TTL 130 (by decide),
   heartbeat_lease_liveness.2.2.2.1 100 HEARTBEAT_TTL 160 (by decide),
   heartbeat_lease_liveness.1 0⟩

/-! ## C9 — payload truncation, order, and positions -/

/-- Helper: the anchor walk of `_perform_search` yields exactly the
successfully extracted records, in page order, truncated to the remaining
position budget and numbered consecutively from the starting position. -/
theorem extract_places_from_eq {α : Type} (limit : Nat) :
    ∀ (l : List (Option α)) (pos : Nat),
      extract_places_from limit pos l
      = (List.enumFrom pos ((l.filterMap id).take (limit + 1 - pos))).map
          (fun p => ⟨p.1, p.2⟩) := by
  intro l
  induction l with
  | nil => intro pos; simp [extract_places_from]
  | cons a rest ih =>
    intro pos
    by_cases hp : limit < pos
    · have h0 : limit + 1 - pos = 0 := by omega
      simp [extract_places_from, hp, h0]
    · cases a with
      | none => simp [extract_places_from, hp, ih pos]
      | some d =>
        have hm : limit + 1 - pos = (limit + 1 - (pos + 1)) + 1 := by omega
        simp [extract_places_from, hp, ih (pos + 1), hm]

/-- C9: in both executors the published payload preserves the
collaborator record order verbatim.  For `_perform_search`, when the page
walk extracts `k` records the published payload holds exactly
`min k limit` of them — the first `min k limit` in page order — numbered
consecutively from 1.  For `google_local_search`, the payload built from
the `collected` records is `enumerate(collected[:limit], start=1)`: again
`min k limit` entries, collaborator order, positions consecutive from 1. -/
theorem payload_order_and_truncation {α : Type} :
    (∀ (limit : Nat) (anchors : List (Option α)),
      (perform_search_places limit anchors).length
        = min (anchors.filterMap id).length limit
      ∧ (perform_search_places limit anchors).map Place.position
        = List.range' 1 (min (anchors.filterMap id).length limit)
      ∧ (perform_search_places limit anchors).map Place.data
        = (anchors.filterMap id).take limit)
    ∧ (∀ (limit : Nat) (collected : List CItem),
      (cluster_places limit collected).length = min collected.length limit
      ∧ (cluster_places limit collected).map ClusterPlace.position
        = List.range' 1 (min collected.length limit)
      ∧ (cluster_places limit collected).map ClusterPlace.title
        = (collected.take limit).map CItem.title) := by
  constructor
  · intro limit anchors
    have hE : extract_places_from limit 1 anchors
        = (List.enumFrom 1 ((anchors.filterMap id).take limit)).map
            (fun p => (⟨p.1, p.2⟩ : Place α)) := by
      simpa using extract_places_from_eq limit anchors 1
    have hElen : (extract_places_from limit 1 anchors).length
        = min limit (anchors.filterMap id).length := by
      simp [hE, List.enumFrom_length, List.length_take]
    have htake : perform_search_places limit anchors
        = extract_places_from limit 1 anchors := by
      refine List.take_of_length_le ?_
      rw [hElen]
      exact Nat.min_le_left _ _
    refine ⟨?_, ?_, ?_⟩
    · rw [htake, hElen, Nat.min_comm]
    · rw [htake, hE, List.map_map]
      have : (Place.position ∘ fun p : Nat × α => (⟨p.1, p.2⟩ : Place α))
          = Prod.fst := rfl
      rw [this, List.enumFrom_map_fst, List.length_take, Nat.min_comm]
    · rw [htake, hE, List.map_map]
      have : (Place.data ∘ fun p : Nat × α => (⟨p.1, p.2⟩ : Place α))
          = Prod.snd := rfl
      rw [this, List.enumFrom_map_snd]
  · intro limit collected
    refine ⟨?_, ?_, ?_⟩
    · simp [cluster_places, List.length_take, Nat.min_comm]
    · rw [cluster_places, List.map_map]
      have h1 : (ClusterPlace.position ∘
          fun p : Nat × CItem => (⟨p.1 + 1, p.2.title, p.2.rating⟩ : ClusterPlace))
          = (fun p : Nat × CItem => p.1 + 1) := rfl
      rw [h1]
      have h2 : (fun p : Nat × CItem => p.1 + 1)
          = ((fun n => n + 1) ∘ Prod.fst) := rfl
      rw [h2, ← List.map_map, List.enum_map_fst, List.range'_eq_map_range,
        List.length_take, Nat.min_comm]
      simp [Nat.add_comm]
    · rw [cluster_places, List.map_map]
      have h1 : (ClusterPlace.title ∘
          fun p : Nat × CItem => (⟨p.1 + 1, p.2.title, p.2.rating⟩ : ClusterPlace))
          = (CItem.title ∘ Prod.snd) := rfl
      rw [h1, ← List.map_map, List.enum_map_snd]

/-! ## C10 — limit normalization drives key and task -/

/-- C10: the effective limit of a multi-host search is
`_normalize_limit(raw)`: a missing or unparsable raw value becomes 10 and
integers are clamped into 1..50 (values already in range pass through,
low values become 1, high values become 50); and on a cache-miss dispatch
the enqueued task carries exactly this normalized limit, while on the
cache path the hit is decided by the key built from this same normalized
limit. -/
theorem normalize_limit_and_dispatch {ρ : Type} (isSuccess : ρ → Bool) :
    (∀ raw : Option Int, 1 ≤ _normalize_limit raw ∧ _normalize_limit raw ≤ 50)
    ∧ _normalize_limit none = 10
    ∧ (∀ n : Int, 1 ≤ n → n ≤ 50 → _normalize_limit (some n) = n)
    ∧ (∀ n : Int, n < 1 → _normalize_limit (some n) = 1)
    ∧ (∀ n : Int, 50 < n → _normalize_limit (some n) = 50)
    ∧ (∀ (q l : String) (raw : Option Int) (now : Int) (fuel : Nat)
        (st : ClusterState ρ),
        lookupAssoc st.cache (generate_cache_key q l (_normalize_limit raw)) = none →
        (cluster_search isSuccess (some q) (some l) raw true now fuel st).2.tasks.head?
          = some ⟨cluster_task_id now, q, l, _normalize_limit raw⟩)
    ∧ (∀ (q l : String) (raw : Option Int) (now : Int) (fuel : Nat)
        (st : ClusterState ρ) (r : ρ),
        lookupAssoc st.cache (generate_cache_key q l (_normalize_limit raw)) = some r →
        (cluster_search isSuccess (some q) (some l) raw true now fuel st).1
          = ClusterResponse.cacheHit r) := by
  refine ⟨?_, by simp [_normalize_limit], ?_, ?_, ?_, ?_, ?_⟩
  · intro raw
    cases raw with
    | none => simp [_normalize_limit]
    | some n => constructor <;> simp [_normalize_limit]
  · intro n h₁ h₂
    simp [_normalize_limit]
    omega
  · intro n h
    simp [_normalize_limit]
    omega
  · intro n h
    simp [_normalize_limit]
    omega
  · intro q l raw now fuel st hc
    cases hw : cluster_wait st.results ("scraper:result:" ++ cluster_task_id now) fuel with
    | none => simp [cluster_search, hc, hw]
    | some r =>
      by_cases hs : isSuccess r
      · simp [cluster_search, hc, hw, hs]
      · simp [cluster_search, hc, hw, hs]
  · intro q l raw now fuel st r hc
    simp [cluster_search, hc]

/-- C10 witness: a missing raw limit normalizes to 10, lands in 1..50, and
the task a concrete cache-miss dispatch enqueues carries it. -/
theorem normalize_limit_and_dispatch_witness :
    _normalize_limit none = 10
    ∧ 1 ≤ _normalize_limit none
    ∧ (cluster_search (fun _ : Unit => true) (some "pizza") (some "recife")
        none true 123 1 ⟨[], [], fun _ => none⟩).2.tasks.head?
        = some ⟨cluster_task_id 123, "pizza", "recife", _normalize_limit none⟩ :=
  ⟨(normalize_limit_and_dispatch (fun _ : Unit => true)).2.1,
   ((normalize_limit_and_dispatch (fun _ : Unit => true)).1 none).1,
   (normalize_limit_and_dispatch (fun _ : Unit => true)).2.2.2.2.2.1
     "pizza" "recife" none 123 1 ⟨[], [], fun _ => none⟩ rfl⟩
